import Mathlib

/-!
Verification development for the ReboundPy repository: a shallow embedding of
the NCAA live-stream box-score aggregator (src/models.py, src/stream.py,
src/http.py) together with theorems settling the specification claims.

Python `int` is modelled by `Int` (counters, which the code only increments
from non-negative roster values, by `Nat`); Python `str` by `String`; Python
dicts by association lists (`List (String × Val)`) whose keys are unique in
all inputs of interest; JSON values by the inductive `Val`; `None` by
`Option`.  Exceptions are modelled by `Except`.
-/

namespace Rebound

/-! ## Python string primitives

The handful of Python `str` operations the code uses, modelled directly on
character lists (Python `str.lower`, `str.split(sep)`, `str.strip`, `int(s)`
and `str(n)` for the decimal rendering of an integer). -/

/-- Python `str.split(sep)` for a one-character separator: splits at every
occurrence, keeping empty parts (`"".split(",") == [""]`). -/
def splitChar (sep : Char) : List Char → List (List Char)
  | [] => [[]]
  | x :: xs =>
    match splitChar sep xs with
    | [] => [[]]
    | h :: t => if x = sep then [] :: h :: t else (x :: h) :: t

/-- Python `str.split(sep)` at the `String` level. -/
def pySplit (s : String) (sep : Char) : List String :=
  (splitChar sep s.toList).map List.asString

/-- Python `str.strip()`: remove leading and trailing whitespace. -/
def pyStrip (s : String) : String :=
  (((s.toList.dropWhile Char.isWhitespace).reverse.dropWhile
      Char.isWhitespace).reverse).asString

/-- Decimal digits of a natural number (fuel-driven; `fuel ≥ n` suffices
since the argument shrinks by a factor of ten each step). -/
def natToCharsAux : Nat → Nat → List Char
  | 0, _ => []
  | fuel + 1, n =>
    if n < 10 then [Char.ofNat (48 + n)]
    else natToCharsAux fuel (n / 10) ++ [Char.ofNat (48 + n % 10)]

/-- Python `str(n)` for an integer. -/
def strOfInt (i : Int) : String :=
  if i < 0 then ('-' :: natToCharsAux (i.natAbs + 1) i.natAbs).asString
  else (natToCharsAux (i.natAbs + 1) i.natAbs).asString

/-- Parse a run of decimal digits. -/
def digitsToNat? (l : List Char) : Option Nat :=
  if l.isEmpty || !(l.all (fun c => c.isDigit)) then none
  else some (l.foldl (fun acc c => acc * 10 + (c.toNat - 48)) 0)

/-- Python `int(s)` on a plain (optionally negated) decimal literal; `int()`
raises on anything else, which is outside the modelled domain (all inputs of
interest are `play_<digits>` keys). -/
def parseInt? (s : String) : Option Int :=
  match s.toList with
  | '-' :: rest => (digitsToNat? rest).map (fun n => -(n : Int))
  | l => (digitsToNat? l).map (fun n => (n : Int))

/-! ## Text matching (models.py stat-rule regexes)

`Player._update_stats_from_play` evaluates `re.search(regex, play_text,
re.IGNORECASE)` for each field regex.  The regexes that occur are of only two
shapes: `a.*b` possibly inside an alternation `p|q`, and `w.*`.  We model
`re.search` for exactly those shapes over lower-cased text: `a.*b` matches iff
an occurrence of `a` is followed (at or after its end) by an occurrence of `b`
with no newline in between (`.` does not match a newline without `re.DOTALL`);
`w.*` matches iff `w` occurs; `p|q` matches iff `p` or `q` matches.  All
pattern literals in the source are already lower-case. -/

/-- Characters of the lower-cased text (models `re.IGNORECASE`). -/
def lcChars (s : String) : List Char := s.toList.map Char.toLower

/-- The literal `pat` occurs at index `i` of `l`. -/
def isPrefAt (pat : String) (l : List Char) (i : Nat) : Bool :=
  pat.toList.isPrefixOf (l.drop i)

/-- The literal `pat` occurs somewhere in `l` (regex `pat.*`, or a bare
alternative such as the `made` in `free throw.*missed|made`). -/
def occursSub (pat : String) (l : List Char) : Bool :=
  (List.range (l.length + 1)).any (fun i => isPrefAt pat l i)

/-- `re.search` for the shape `a.*b`: some occurrence of `a` is followed by
an occurrence of `b` starting at or after the end of `a`, with no newline in
the gap (`.` does not cross lines). -/
def seqSameLine (a b : String) (l : List Char) : Bool :=
  (List.range (l.length + 1)).any (fun i =>
    isPrefAt a l i &&
    (List.range (l.length + 1)).any (fun j =>
      decide (i + a.length ≤ j) && isPrefAt b l j &&
      ((l.drop (i + a.length)).take (j - (i + a.length))).all
        (fun ch => ch != Char.ofNat 10)))

/-- models.py field regex `(jump shot|layup).*made` (FGM). -/
def re_fgm (t : String) : Bool :=
  seqSameLine "jump shot" "made" (lcChars t) || seqSameLine "layup" "made" (lcChars t)

/-- models.py field regex `free throw.*missed|made` (FGA): the alternation is
unparenthesized, so it reads `(free throw.*missed)|(made)`. -/
def re_fga (t : String) : Bool :=
  seqSameLine "free throw" "missed" (lcChars t) || occursSub "made" (lcChars t)

/-- models.py field regex `3pt.*made` (3FGM). -/
def re_3pfgm (t : String) : Bool :=
  seqSameLine "3pt" "made" (lcChars t)

/-- models.py field regex `3pt.*missed|made` (3FGA), i.e. `(3pt.*missed)|(made)`. -/
def re_3pfga (t : String) : Bool :=
  seqSameLine "3pt" "missed" (lcChars t) || occursSub "made" (lcChars t)

/-- models.py field regex `free throw.*made` (FTM). -/
def re_ftm (t : String) : Bool :=
  seqSameLine "free throw" "made" (lcChars t)

/-- models.py field regex `free throw.*missed|made` (FTA), i.e.
`(free throw.*missed)|(made)`. -/
def re_fta (t : String) : Bool :=
  seqSameLine "free throw" "missed" (lcChars t) || occursSub "made" (lcChars t)

/-- models.py field regex `turnover.*` (TO): matches iff `turnover` occurs. -/
def re_turnover (t : String) : Bool :=
  occursSub "turnover" (lcChars t)

/-- models.py field regex `foul.*` (F): matches iff `foul` occurs. -/
def re_foul (t : String) : Bool :=
  occursSub "foul" (lcChars t)

/-! ## Data model (models.py) -/

/-- models.py `Play`: immutable record of one play event. -/
structure Play where
  play_id : Int
  play_text : String
  clock : String
  period : Int
deriving Repr, DecidableEq

/-- models.py `Player`: roster fields plus counting statistics and the
sequence of applied plays.  Defaults mirror the dataclass defaults. -/
structure Player where
  name : String
  number : Int
  position : String
  starter : Int
  on_court : Int
  minutes_played : String := "0:00"
  field_goals_made : Nat := 0
  field_goals_attempted : Nat := 0
  three_point_field_goals_made : Nat := 0
  three_point_field_goals_attempted : Nat := 0
  free_throws_made : Nat := 0
  free_throws_attempted : Nat := 0
  points : Nat := 0
  offensive_rebounds : Nat := 0
  defensive_rebounds : Nat := 0
  total_rebounds : Nat := 0
  assists : Nat := 0
  turnovers : Nat := 0
  steals : Nat := 0
  blocks : Nat := 0
  fouls : Nat := 0
  disqualifications : Nat := 0
  technical_fouls : Nat := 0
  plays : List Play := []
deriving Repr, DecidableEq

/-- models.py `Player._update_stats_from_play`: every field regex is evaluated
against the play text independently and exhaustively; each matching field is
incremented by one.  (The `matched` flag only drives a log line for unmatched
text; the state change is exactly the increments below.) -/
def update_stats_from_play (p : Player) (play_text : String) : Player :=
  { p with
    field_goals_made :=
      p.field_goals_made + (if re_fgm play_text then 1 else 0),
    field_goals_attempted :=
      p.field_goals_attempted + (if re_fga play_text then 1 else 0),
    three_point_field_goals_made :=
      p.three_point_field_goals_made + (if re_3pfgm play_text then 1 else 0),
    three_point_field_goals_attempted :=
      p.three_point_field_goals_attempted + (if re_3pfga play_text then 1 else 0),
    free_throws_made :=
      p.free_throws_made + (if re_ftm play_text then 1 else 0),
    free_throws_attempted :=
      p.free_throws_attempted + (if re_fta play_text then 1 else 0),
    turnovers :=
      p.turnovers + (if re_turnover play_text then 1 else 0),
    fouls :=
      p.fouls + (if re_foul play_text then 1 else 0) }

/-- models.py `Player.add_play`.  The de-duplication predicate is transcribed
exactly as written in the source: `play.play_id == play_id and
play_text == play_text and clock == clock and period == period` — the last
three conjuncts compare the arguments with themselves (not with the fields of
`play`), so they are identically true and only `play_id` is compared.
Returns the (new) player state and the returned `Play`. -/
def add_play (p : Player) (play_id : Int) (play_text : String) (clock : String)
    (period : Int) : Player × Play :=
  match p.plays.find? (fun play =>
      play.play_id == play_id && play_text == play_text
        && clock == clock && period == period) with
  | some existing_play => (p, existing_play)
  | none =>
    let new_play : Play :=
      { play_id := play_id, play_text := play_text, clock := clock, period := period }
    let p1 := update_stats_from_play p new_play.play_text
    ({ p1 with plays := p1.plays ++ [new_play] }, new_play)

/-- models.py `Scoreboard`: one team's roster.  `team_shortname` defaults to
Python `None`, modelled by `Option.none`. -/
structure Scoreboard where
  team_name : String
  team_logo_url : String
  players : List Player
  team_shortname : Option String := none
deriving Repr, DecidableEq

/-- models.py `Scoreboard.get_player_by_name`: first player whose name equals
`name`, else `None`. -/
def get_player_by_name (sb : Scoreboard) (name : String) : Option Player :=
  sb.players.find? (fun player => player.name == name)

/-! ## Protocol message id counter (models.py `BaseMessage.__post_init__`)

`BaseMessage` declares `_id_counter: ClassVar[int] = 0`; `__post_init__` runs
`self.id = str(self.__class__._id_counter)` followed by
`self.__class__._id_counter += 1`.  In Python the augmented assignment reads
the attribute through the method-resolution order (falling back to
`BaseMessage` while the subclass has no attribute of its own) but writes it
onto `self.__class__`, i.e. onto the concrete subclass, which shadows the base
attribute from then on.  We model that attribute semantics exactly. -/

/-- The three concrete message variants (HandshakeMessage, ConnectMessage,
SubscribeMessage). -/
inductive MsgVariant where
  | handshake
  | connect
  | subscribe
deriving Repr, DecidableEq

/-- The `_id_counter` class attributes: the value on `BaseMessage` plus the
(optional, initially absent) shadowing attribute on each subclass. -/
structure IdCounterState where
  base : Nat
  handshake_own : Option Nat := none
  connect_own : Option Nat := none
  subscribe_own : Option Nat := none
deriving Repr, DecidableEq

/-- Process start: `BaseMessage._id_counter = 0`, no subclass attribute. -/
def initial_counters : IdCounterState := {base := 0}

/-- Attribute read `self.__class__._id_counter`: the subclass attribute if it
has been set, else the inherited `BaseMessage` value. -/
def read_counter (s : IdCounterState) : MsgVariant → Nat
  | .handshake => s.handshake_own.getD s.base
  | .connect => s.connect_own.getD s.base
  | .subscribe => s.subscribe_own.getD s.base

/-- Attribute write `self.__class__._id_counter = n`: sets the subclass
attribute, leaving `BaseMessage._id_counter` untouched. -/
def write_counter (s : IdCounterState) (v : MsgVariant) (n : Nat) : IdCounterState :=
  match v with
  | .handshake => { s with handshake_own := some n }
  | .connect => { s with connect_own := some n }
  | .subscribe => { s with subscribe_own := some n }

/-- `BaseMessage.__post_init__` for a construction of variant `v`: the
message's `id` string and the resulting counter state. -/
def construct_message (s : IdCounterState) (v : MsgVariant) : IdCounterState × String :=
  let n := read_counter s v
  (write_counter s v (n + 1), strOfInt (Int.ofNat n))

/-- The sequence of `id` strings observed across a mixed sequence of message
constructions in one process. -/
def construct_sequence (s : IdCounterState) : List MsgVariant → List String
  | [] => []
  | v :: vs =>
    let r := construct_message s v
    r.2 :: construct_sequence r.1 vs

/-! ## JSON values and inbound frames (stream.py) -/

/-- A decoded JSON value, as produced by `json.loads`. -/
inductive Val where
  | str : String → Val
  | int : Int → Val
  | bool : Bool → Val
  | null : Val
  | arr : List Val → Val
  | dict : List (String × Val) → Val

/-- Python `==` between a JSON value and a string: equal iff the value is that
very string (a non-string never equals a string). -/
def val_eq_str (v : Val) (s : String) : Bool :=
  match v with
  | Val.str t => t == s
  | _ => false

/-- One message object of an inbound frame (a Python dict). -/
abbrev Item := List (String × Val)

/-- The session/stream state mutated by the router and aggregator
(`LiveStreamStats`: sports code, game id, the two scoreboards). -/
structure StreamState where
  sports_code : String
  game_id : Int
  away_scoreboard : Scoreboard
  home_scoreboard : Scoreboard
deriving Repr, DecidableEq

/-- stream.py subscription channel `f"/{sports_code}/box_score/{game_id}"`. -/
def subscription_channel (st : StreamState) : String :=
  "/" ++ st.sports_code ++ "/box_score/" ++ strOfInt st.game_id

/-! ## Player resolution (stream.py `LiveStreamStats._get_player`) -/

/-- Which scoreboard a resolved player lives on (implicit in Python through
object identity; made explicit here so the in-place mutation of the resolved
player can be written back). -/
inductive PSide where
  | away
  | home
deriving Repr, DecidableEq

/-- stream.py `LiveStreamStats._get_player`: if a scoreboard's bound shortname
equals the reference's shortname, look up by name in that scoreboard only
(away checked first).  Otherwise fall back to a name search over away then
home, binding the matching scoreboard's `team_shortname` to the reference's
shortname when a player is found.  Returns the possibly-rebound state and the
resolved player (tagged with its side), or `none`. -/
def get_player (st : StreamState) (player_name team_shortname : String) :
    StreamState × Option (PSide × Player) :=
  if st.away_scoreboard.team_shortname == some team_shortname then
    (st, (get_player_by_name st.away_scoreboard player_name).map (fun p => (PSide.away, p)))
  else if st.home_scoreboard.team_shortname == some team_shortname then
    (st, (get_player_by_name st.home_scoreboard player_name).map (fun p => (PSide.home, p)))
  else
    match get_player_by_name st.away_scoreboard player_name with
    | some player =>
      ({ st with away_scoreboard :=
          { st.away_scoreboard with team_shortname := some team_shortname } },
        some (PSide.away, player))
    | none =>
      match get_player_by_name st.home_scoreboard player_name with
      | some player =>
        ({ st with home_scoreboard :=
            { st.home_scoreboard with team_shortname := some team_shortname } },
          some (PSide.home, player))
      | none => (st, none)

/-- Replace the first player with the given name (the one `find?` resolves to,
and the one Python mutates in place through the returned object). -/
def set_first_player : List Player → String → Player → List Player
  | [], _, _ => []
  | p :: ps, name, q =>
    if p.name == name then q :: ps else p :: set_first_player ps name q

/-- Write an updated player back onto the side of the state it was resolved
from (models Python's in-place mutation of the `Player` object). -/
def set_player (st : StreamState) (side : PSide) (name : String) (q : Player) :
    StreamState :=
  match side with
  | PSide.away =>
    { st with away_scoreboard :=
        { st.away_scoreboard with
            players := set_first_player st.away_scoreboard.players name q } }
  | PSide.home =>
    { st with home_scoreboard :=
        { st.home_scoreboard with
            players := set_first_player st.home_scoreboard.players name q } }

/-! ## Play parser (stream.py `LiveStreamStats._parse_plays`)

`re.finditer(r"(?P<player_name>[A-Za-z\s]+)\((?P<team_shortname>[A-Za-z]+)\)",
play_text)`: non-overlapping matches scanned left to right.  Because `(` and
`)` are not in either character class, backtracking is degenerate: the pattern
matches at position `i` iff the maximal run of name characters starting at `i`
is non-empty and is immediately followed by `(`, a non-empty maximal run of
ASCII letters, and `)`.  `finditer` takes the leftmost such `i` and resumes
after the consumed match. -/

/-- Python regex class `[A-Za-z]`. -/
def isAsciiLetter (c : Char) : Bool :=
  (decide ('A' ≤ c) && decide (c ≤ 'Z')) || (decide ('a' ≤ c) && decide (c ≤ 'z'))

/-- Python regex class `[A-Za-z\s]` (`\s` = whitespace). -/
def isNameChar (c : Char) : Bool :=
  isAsciiLetter c || c.isWhitespace

/-- Attempt to match the player-reference pattern at the head of `l`:
on success, the (name, shorthand) groups and the remainder after `)`. -/
def match_ref_at (l : List Char) : Option ((String × String) × List Char) :=
  let run1 := l.takeWhile isNameChar
  if run1.isEmpty then none
  else
    match l.drop run1.length with
    | '(' :: rest1 =>
      let run2 := rest1.takeWhile isAsciiLetter
      if run2.isEmpty then none
      else
        match rest1.drop run2.length with
        | ')' :: rest2 => some ((run1.asString, run2.asString), rest2)
        | _ => none
    | _ => none

/-- Left-to-right scan of `finditer`, with fuel bounding the number of steps
(each step consumes at least one character, so `l.length` fuel is exact). -/
def parse_plays_go : Nat → List Char → List (String × String)
  | 0, _ => []
  | _ + 1, [] => []
  | fuel + 1, c :: rest =>
    match match_ref_at (c :: rest) with
    | some (groups, remainder) => groups :: parse_plays_go fuel remainder
    | none => parse_plays_go fuel rest

/-- stream.py `LiveStreamStats._parse_plays`: all (player name, team
shorthand) references in one play-text fragment. -/
def parse_plays (play_text : String) : List (String × String) :=
  parse_plays_go play_text.length play_text.toList

/-! ## Message router (stream.py `_is_relevant_message`, `_extract_play_data`,
`_process_play_data`, `_process_messages`) -/

/-- The object's `channel` entry exists and equals the subscription channel
(first two conjuncts of `_is_relevant_message`). -/
def channel_matches (st : StreamState) (item : Item) : Bool :=
  match item.lookup "channel" with
  | some v => val_eq_str v (subscription_channel st)
  | none => false

/-- stream.py `LiveStreamStats._is_relevant_message`: `"channel" in item and
item["channel"] == f"/{sports_code}/box_score/{game_id}" and "data" in item
and "chart" not in item and "shot_chart" not in item`.  Note the `chart` /
`shot_chart` membership tests are on the top-level object, not on
`item["data"]`. -/
def is_relevant_message (st : StreamState) (item : Item) : Bool :=
  channel_matches st item
    && (item.lookup "data").isSome
    && (item.lookup "chart").isNone
    && (item.lookup "shot_chart").isNone

/-- stream.py `LiveStreamStats._extract_play_data`: the entries of
`item["data"]` whose key starts with `play_`.  (`item["data"].items()` assumes
the payload is a mapping; a non-mapping payload would raise in Python and is
outside the modelled domain, so it yields no entries here.) -/
def extract_play_data (item : Item) : List (String × Val) :=
  match item.lookup "data" with
  | some (Val.dict d) => d.filter (fun kv => "play_".toList.isPrefixOf kv.1.toList)
  | _ => []

/-- `item["data"]` exists and is a mapping with at least one entry. -/
def payload_nonempty (item : Item) : Bool :=
  match item.lookup "data" with
  | some (Val.dict (_ :: _)) => true
  | _ => false

/-- `play_info.get(key, "")` for a string-valued entry: missing keys default
to `""`; the values of interest are strings (a non-string value would make
Python's downstream `.split`/use ill-typed and is outside the modelled
domain). -/
def get_str_entry (play_info : Val) (key : String) : String :=
  match play_info with
  | Val.dict d =>
    match d.lookup key with
    | some (Val.str s) => s
    | _ => ""
  | _ => ""

/-- `play_info.get(key, 0)` for an integer-valued entry (the period). -/
def get_int_entry (play_info : Val) (key : String) : Int :=
  match play_info with
  | Val.dict d =>
    match d.lookup key with
    | some (Val.int n) => n
    | _ => 0
  | _ => 0

/-- One raw play submission as assembled by `_process_play_data` before player
resolution: the play identifier parsed from the key, the comma-split play-text
fragments, the clock and the period (the spec's "(identifier, text, clock,
period) bundle"). -/
structure RawPlaySubmission where
  play_id : Int
  plays_text : List String
  clock : String
  period : Int
deriving Repr, DecidableEq

/-- The bundle-assembly half of stream.py `_process_play_data`:
`play_id = int(play_key.split("_")[1])` and the three sibling lookups keyed by
that identifier.  (`int()` raises on a key that is not `play_<digits>`; all
keys of interest are well-formed, malformed ones default here.) -/
def extract_submission (play_key : String) (play_info : Val) : RawPlaySubmission :=
  let play_id : Int := (parseInt? ((pySplit play_key '_').getD 1 "")).getD 0
  { play_id := play_id,
    plays_text := pySplit (get_str_entry play_info ("play_text_" ++ strOfInt play_id)) ',',
    clock := get_str_entry play_info ("clock_" ++ strOfInt play_id),
    period := get_int_entry play_info ("period_" ++ strOfInt play_id) }

/-- The play submissions one frame object hands to the aggregation path:
empty unless `_is_relevant_message` accepts the object, else one bundle per
`play_`-prefixed payload key. -/
def item_play_submissions (st : StreamState) (item : Item) : List RawPlaySubmission :=
  if is_relevant_message st item then
    (extract_play_data item).map (fun kv => extract_submission kv.1 kv.2)
  else []

/-- One parsed reference applied to the state: `_get_player` on the stripped
name, then, when a player resolved, `player.add_play(...)` mutating it in
place. -/
def apply_reference (st : StreamState) (player_name team_shortname : String)
    (play_id : Int) (play_text clock : String) (period : Int) : StreamState :=
  match get_player st player_name team_shortname with
  | (st1, some (side, player)) =>
    set_player st1 side player.name (add_play player play_id play_text clock period).1
  | (st1, none) => st1

/-- The resolution half of stream.py `_process_play_data`: for each comma-split
fragment, for each `(name, shorthand)` reference found by `_parse_plays`,
resolve and apply (`match.group("player_name").strip()` models as `trim`). -/
def process_submission (st : StreamState) (sub : RawPlaySubmission) : StreamState :=
  sub.plays_text.foldl
    (fun st1 play_text =>
      (parse_plays play_text).foldl
        (fun st2 m =>
          apply_reference st2 (pyStrip m.1) m.2 sub.play_id play_text sub.clock sub.period)
        st1)
    st

/-- stream.py `LiveStreamStats._process_play_data` for one payload entry. -/
def process_play_data (st : StreamState) (play_key : String) (play_info : Val) :
    StreamState :=
  process_submission st (extract_submission play_key play_info)

/-- The per-object body of `_process_messages`: irrelevant objects are
skipped, relevant ones have each `play_` payload entry processed. -/
def process_item (st : StreamState) (item : Item) : StreamState :=
  if is_relevant_message st item then
    (extract_play_data item).foldl (fun st1 kv => process_play_data st1 kv.1 kv.2) st
  else st

/-- `json.loads` failing on a raw frame is modelled by the frame being `none`
(the decoded message list otherwise). -/
abbrev RawFrame := Option (List Item)

/-- stream.py `LiveStreamStats._process_messages` over a finite inbound-frame
history: each frame is decoded with `json.loads` and its objects processed in
order.  The decode is not guarded by any handler, so an undecodable frame
raises out of the task — modelled by `Except.error`, which ends processing;
(`stream` catches only `websockets.ConnectionClosed`, not decode errors). -/
def process_messages (st : StreamState) : List RawFrame → Except Unit StreamState
  | [] => Except.ok st
  | none :: _ => Except.error ()
  | some items :: rest => process_messages (items.foldl process_item st) rest

/-! ## Session bootstrap (stream.py `LiveStreamStats.__init__`, http.py
`fetch_url`)

`fetch_url` catches every `requests` exception (including non-2xx via
`raise_for_status` and exhausted retries) and returns `None`; `__init__`
immediately evaluates `response.headers["Set-Cookie"]`, so a failed fetch
raises `AttributeError` on `None` and a response without a `Set-Cookie`
header raises `KeyError` — both abort construction.  The session-token regex
`(?:livestream_user_id=([^;]+);)?(?:.*?_stats_session=([^;]+);)?` is fully
optional, so `re.search` always succeeds at position 0 and each absent group
defaults to `""` via `match.group(n) if match and match.group(n) else ""`. -/

/-- The ways `LiveStreamStats.__init__` (the bootstrap) can abort. -/
inductive BootstrapError where
  | fetchFailed
  | missingSetCookieHeader
deriving Repr, DecidableEq

/-- The HTTP response fields the bootstrap consumes. -/
structure HttpResponse where
  headers : List (String × String)
  text : String
deriving Repr, DecidableEq

/-- The session identity `__init__` derives (the body's scoreboard parse is
the out-of-scope HTML collaborator). -/
structure SessionInit where
  livestream_user_id : String
  stats_session : String
  session_cookie : String
deriving Repr, DecidableEq

/-- Group 1 of the session regex: `(?:livestream_user_id=([^;]+);)?` anchored
at position 0 by the search (the whole pattern matches — possibly emptily — at
position 0, so the optional group participates only if the literal starts the
header, followed by one or more non-`;` characters and a `;`). -/
def extract_user_id (header : String) : Option String :=
  let l := header.toList
  let lit := "livestream_user_id=".toList
  if lit.isPrefixOf l then
    let rest := l.drop lit.length
    let run := rest.takeWhile (fun c => c != ';')
    if run.isEmpty || decide (run.length = rest.length) then none
    else some run.asString
  else none

/-- Matching `_stats_session=([^;]+);` at the head of `l`: the captured run on
success. -/
def match_stats_session_at (l : List Char) : Option String :=
  let lit := "_stats_session=".toList
  if lit.isPrefixOf l then
    let rest := l.drop lit.length
    let run := rest.takeWhile (fun c => c != ';')
    if run.isEmpty || decide (run.length = rest.length) then none
    else some run.asString
  else none

/-- The lazy scan `.*?_stats_session=([^;]+);`: first properly terminated
occurrence, with `.` unable to cross a newline. -/
def scan_stats_session : List Char → Option String
  | [] => none
  | c :: rest =>
    match match_stats_session_at (c :: rest) with
    | some g => some g
    | none => if c = Char.ofNat 10 then none else scan_stats_session rest

/-- Group 2 of the session regex: the scan starts where the (optional) first
group stopped. -/
def extract_stats_session (header : String) : Option String :=
  let l := header.toList
  match extract_user_id header with
  | some u => scan_stats_session (l.drop ("livestream_user_id=".length + u.length + 1))
  | none => scan_stats_session l

/-- stream.py `LiveStreamStats.__init__`, given the outcome of
`fetch_url(f"{BASE_STATS_URL}/{game_id}/box_score")`: a failed fetch aborts;
a response without the session-establishing `Set-Cookie` header aborts (the
`KeyError` of `response.headers["Set-Cookie"]`); otherwise each token is
extracted from the header, defaulting independently to `""`, and the session
cookie string is assembled. -/
def bootstrap (fetch_result : Option HttpResponse) : Except BootstrapError SessionInit :=
  match fetch_result with
  | none => Except.error BootstrapError.fetchFailed
  | some response =>
    match response.headers.lookup "Set-Cookie" with
    | none => Except.error BootstrapError.missingSetCookieHeader
    | some cookie =>
      let livestream_user_id := (extract_user_id cookie).getD ""
      let stats_session := (extract_stats_session cookie).getD ""
      Except.ok
        { livestream_user_id := livestream_user_id,
          stats_session := stats_session,
          session_cookie :=
            "livestream_user_id=" ++ livestream_user_id
              ++ "; _stats_session=" ++ stats_session }

/-! ## Concrete fixtures used by the claim theorems -/

/-- A roster player with zeroed counters and no plays. -/
def mkPlayer (nm : String) : Player :=
  { name := nm, number := 0, position := "G", starter := 1, on_court := 1 }

/-- C1 fixture: a player that has already applied play id 3 with text
`"made layup"` (counters reflecting that play). -/
def doeC1 : Player :=
  { mkPlayer "Doe" with
      field_goals_attempted := 1,
      three_point_field_goals_attempted := 1,
      free_throws_attempted := 1,
      plays := [{ play_id := 3, play_text := "made layup", clock := "5:00", period := 2 }] }

/-- C2 fixture: a player that has already applied play id 7 with text `"foo"`. -/
def smithC2 : Player :=
  { mkPlayer "Smith" with
      plays := [{ play_id := 7, play_text := "foo", clock := "9:00", period := 1 }] }

/-- Shared game fixture: away team (shorthand bound to `ABC`) rostering Doe,
home team rostering Roe, subscribed to `/WBB/box_score/100`. -/
def stGame : StreamState :=
  { sports_code := "WBB",
    game_id := 100,
    away_scoreboard :=
      { team_name := "Alpha", team_logo_url := "a.png",
        players := [mkPlayer "Doe"], team_shortname := some "ABC" },
    home_scoreboard :=
      { team_name := "Beta", team_logo_url := "b.png",
        players := [mkPlayer "Roe"], team_shortname := some "XYZ" } }

/-! ## Claim theorems -/

/-- C1: the claim says applying the same (id, text, clock, period) tuple twice
yields exactly one Play and each affected counter incremented exactly once.
The code de-duplicates on `play_id` alone (the dedup predicate's other three
comparisons compare the arguments with themselves), so on a player that
already holds a Play with the same id but different text, both applications
return that pre-existing Play: the submitted tuple is never appended and no
counter is incremented at all.  Evaluated at the failing input. -/
theorem c1_same_tuple_twice_zero_effect :
    add_play ((add_play doeC1 3 "made jump shot" "5:00" 2).1) 3 "made jump shot" "5:00" 2
      = (doeC1, { play_id := 3, play_text := "made layup", clock := "5:00", period := 2 })
      ∧ (doeC1.plays.filter
          (fun pl => pl == { play_id := 3, play_text := "made jump shot",
                             clock := "5:00", period := 2 })).length = 0 := by
  constructor
  · rfl
  · rfl

/-- C2: the claim says identity for de-duplication is the full
(id, text, clock, period) tuple, so a same-id submission with different text,
clock and period must create and append a new Play.  The code instead returns
the existing Play unchanged — `add_play`'s predicate only really compares
`play_id`, because `play_text == play_text`, `clock == clock` and
`period == period` compare the arguments with themselves.  Evaluated at the
failing input. -/
theorem c2_unseen_tuple_same_id_not_applied :
    add_play smithC2 7 "bar" "8:00" 2
      = (smithC2, { play_id := 7, play_text := "foo", clock := "9:00", period := 1 }) := by
  rfl

/-- C4: the claim says ids across a mixed Handshake/Connect/Subscribe
construction sequence are strictly increasing because all variants share one
counter.  The augmented assignment `self.__class__._id_counter += 1` writes
the counter onto the concrete subclass, shadowing `BaseMessage._id_counter`,
so each variant counts independently: a fresh process constructing a
Handshake, a Connect and a Subscribe observes ids "0", "0", "0". -/
theorem c4_ids_not_strictly_increasing :
    construct_sequence initial_counters
        [MsgVariant.handshake, MsgVariant.connect, MsgVariant.subscribe]
      = ["0", "0", "0"]
      ∧ ¬ List.Chain' (fun a b => a < b)
          (construct_sequence initial_counters
            [MsgVariant.handshake, MsgVariant.connect, MsgVariant.subscribe]) := by
  refine ⟨rfl, fun h => ?_⟩
  have h0 : ("0" : String) < "0" := by
    have h1 : construct_sequence initial_counters
        [MsgVariant.handshake, MsgVariant.connect, MsgVariant.subscribe]
          = ["0", "0", "0"] := rfl
    rw [h1] at h
    exact (List.chain'_cons.mp h).1
  exact lt_irrefl _ h0

/-- C3 fixture: the play payload entry carrying the scenario text, processed
against `stGame` (Doe resolvable on the away team bound to `ABC`). -/
def stC3After : StreamState :=
  process_play_data stGame "play_5"
    (Val.dict [("play_text_5", Val.str "Doe(ABC) made Layup"),
               ("clock_5", Val.str "10:00"),
               ("period_5", Val.int 1)])

/-- The state of Doe after the C3 scenario play. -/
def doeAfterC3 : Player :=
  (get_player_by_name stC3After.away_scoreboard "Doe").getD (mkPlayer "absent")

/-- C3 counterexample: the claim says `"Doe(ABC) made Layup"` increments both
`field_goals_made` and `field_goals_attempted`.  The FGM rule
`(jump shot|layup).*made` requires the shot keyword to precede `made`, which
this text does not satisfy, so only the attempt counter moves: the conjunction
the claim asserts is false on a resolvable player of the bound team. -/
theorem c3_made_layup_does_not_increment_fgm :
    get_player_by_name stGame.away_scoreboard "Doe" = some (mkPlayer "Doe")
      ∧ stGame.away_scoreboard.team_shortname = some "ABC"
      ∧ ¬ (doeAfterC3.field_goals_made = (mkPlayer "Doe").field_goals_made + 1
            ∧ doeAfterC3.field_goals_attempted
                = (mkPlayer "Doe").field_goals_attempted + 1) := by
  refine ⟨rfl, rfl, ?_⟩
  decide

/-- C3 amended: on the same input, `field_goals_attempted` is incremented by
one while `field_goals_made` is unchanged, and the Play is appended. -/
theorem c3_amended_made_layup_increments_fga_only :
    doeAfterC3.field_goals_attempted = (mkPlayer "Doe").field_goals_attempted + 1
      ∧ doeAfterC3.field_goals_made = (mkPlayer "Doe").field_goals_made
      ∧ doeAfterC3.plays
          = [{ play_id := 5, play_text := "Doe(ABC) made Layup",
               clock := "10:00", period := 1 }] := by
  refine ⟨?_, ?_, ?_⟩ <;> decide

/-- C5 fixture: away bound to `ABC` rostering Doe and Kim; home unbound,
also rostering a like-named Doe. -/
def stC5 : StreamState :=
  { sports_code := "WBB",
    game_id := 100,
    away_scoreboard :=
      { team_name := "Alpha", team_logo_url := "a.png",
        players := [mkPlayer "Doe", mkPlayer "Kim"], team_shortname := some "ABC" },
    home_scoreboard :=
      { team_name := "Beta", team_logo_url := "b.png",
        players := [mkPlayer "Doe"], team_shortname := none } }

/-- C5 counterexample: the claim says a bound Scoreboard is never rebound to a
different shorthand for the rest of the session.  But `_get_player`'s fallback
has no bound-check: a reference with a new shorthand `QQ` naming a player on
the already-bound away team rebinds away's shorthand from `ABC` to `QQ`. -/
theorem c5_bound_scoreboard_rebinds :
    stC5.away_scoreboard.team_shortname = some "ABC"
      ∧ (get_player stC5 "Kim" "QQ").1.away_scoreboard.team_shortname = some "QQ" := by
  exact ⟨rfl, rfl⟩

/-- C5 amended: a reference whose shorthand equals a currently bound
scoreboard's shorthand resolves by name within that scoreboard only (away
checked first) and leaves the whole state unchanged, even if a like-named
player exists on the other team; stability of the binding itself is only
per-call — a later reference whose shorthand matches neither binding may
rebind a scoreboard through the fallback. -/
theorem c5_amended_bound_shorthand_resolves_locally (st : StreamState)
    (player_name team_shortname : String) :
    (st.away_scoreboard.team_shortname = some team_shortname →
        get_player st player_name team_shortname
          = (st, (get_player_by_name st.away_scoreboard player_name).map
              (fun p => (PSide.away, p))))
      ∧ (st.away_scoreboard.team_shortname ≠ some team_shortname →
          st.home_scoreboard.team_shortname = some team_shortname →
           get_player st player_name team_shortname
             = (st, (get_player_by_name st.home_scoreboard player_name).map
                 (fun p => (PSide.home, p)))) := by
  constructor
  · intro h
    simp [get_player, h]
  · intro h1 h2
    have hb : (st.away_scoreboard.team_shortname == some team_shortname) = false :=
      beq_eq_false_iff_ne.mpr h1
    simp [get_player, hb, h2]

/-- C5 witness: on `stC5` (away bound `ABC`, like-named Doe on home), the
reference (Doe, ABC) resolves inside away only and changes nothing. -/
theorem c5_amended_witness :
    get_player stC5 "Doe" "ABC"
      = (stC5, (get_player_by_name stC5.away_scoreboard "Doe").map
          (fun p => (PSide.away, p))) :=
  (c5_amended_bound_shorthand_resolves_locally stC5 "Doe" "ABC").1 rfl

/-- C6 fixture: a frame object on the subscribed channel whose payload holds
both a `chart` entry and a play entry. -/
def itemChartInPayload : Item :=
  [("channel", Val.str "/WBB/box_score/100"),
   ("data", Val.dict
      [("chart", Val.dict [("made", Val.int 3)]),
       ("play_5", Val.dict
          [("play_text_5", Val.str "Doe(ABC) made Layup"),
           ("clock_5", Val.str "10:00"),
           ("period_5", Val.int 1)])])]

/-- C6 counterexample: the claim says an object whose payload contains a chart
key produces zero forwarded play submissions.  `_is_relevant_message` tests
`"chart" not in item` on the top-level object, not on `item["data"]`, so this
object passes the filter and its `play_5` entry is forwarded as a submission. -/
theorem c6_payload_chart_key_still_forwarded :
    (match itemChartInPayload.lookup "data" with
      | some (Val.dict d) => (d.lookup "chart").isSome
      | _ => false) = true
      ∧ item_play_submissions stGame itemChartInPayload
          = [{ play_id := 5, plays_text := ["Doe(ABC) made Layup"],
               clock := "10:00", period := 1 }] := by
  refine ⟨rfl, ?_⟩
  decide

/-- C6 amended: an object yields zero forwarded play submissions unless its
channel equals the subscribed channel and it carries a payload map with at
least one entry; the chart / shot-chart exclusion applies to keys of the
top-level object (where a key of either name forces zero submissions), not to
keys inside the payload. -/
theorem c6_amended_router_filtering (st : StreamState) (item : Item)
    (h : (channel_matches st item && payload_nonempty item) = false
        ∨ (item.lookup "chart").isSome = true
        ∨ (item.lookup "shot_chart").isSome = true) :
    item_play_submissions st item = [] := by
  unfold item_play_submissions
  cases hr : is_relevant_message st item with
  | false => simp
  | true =>
    have hr1 := hr
    simp only [is_relevant_message, Bool.and_eq_true] at hr1
    obtain ⟨⟨⟨hch, hdata⟩, hchart⟩, hshot⟩ := hr1
    rcases h with h | h | h
    · rw [hch, Bool.true_and] at h
      simp only [if_true]
      unfold extract_play_data
      unfold payload_nonempty at h
      rcases hd : item.lookup "data" with _ | v
      · rw [hd] at hdata; simp at hdata
      · rcases v with s | n | b | _ | a | d
        · simp
        · simp
        · simp
        · simp
        · simp
        · rcases d with _ | ⟨kv, rest⟩
          · simp
          · rw [hd] at h; simp at h
    · rw [Option.isSome_iff_exists] at h
      obtain ⟨v, hv⟩ := h
      rw [hv] at hchart
      simp at hchart
    · rw [Option.isSome_iff_exists] at h
      obtain ⟨v, hv⟩ := h
      rw [hv] at hshot
      simp at hshot

/-- C6 witness: a channel-mismatched object produces zero submissions. -/
theorem c6_amended_witness :
    item_play_submissions stGame
        [("channel", Val.str "/MBB/box_score/999"),
         ("data", Val.dict [("play_5", Val.dict [])])]
      = [] :=
  c6_amended_router_filtering stGame
    [("channel", Val.str "/MBB/box_score/999"),
     ("data", Val.dict [("play_5", Val.dict [])])]
    (Or.inl (by decide))

/-- C7 fixture: a well-formed frame object whose play is attributable to Doe. -/
def goodItem : Item :=
  [("channel", Val.str "/WBB/box_score/100"),
   ("data", Val.dict
      [("play_5", Val.dict
          [("play_text_5", Val.str "Doe(ABC) made Layup"),
           ("clock_5", Val.str "10:00"),
           ("period_5", Val.int 1)])])]

/-- The state after processing the good frame alone. -/
def stAfterGoodFrame : StreamState := process_item stGame goodItem

/-- C7 counterexample: the claim says an undecodable frame is isolated and
skipped with processing continuing.  `_process_messages` calls `json.loads`
with no handler (and `stream` catches only `websockets.ConnectionClosed`), so
the decode error terminates the task: with the history [undecodable frame,
good frame], processing errors out and the good frame — which on its own
would have updated the state — is never applied. -/
theorem c7_malformed_frame_kills_task :
    process_messages stGame [none, some [goodItem]] = Except.error ()
      ∧ process_messages stGame [some [goodItem]] = Except.ok stAfterGoodFrame
      ∧ stAfterGoodFrame ≠ stGame := by
  refine ⟨rfl, rfl, ?_⟩
  decide

/-- C7 amended: a single undecodable inbound frame is not isolated — the
frame-processing task terminates with the decode error at the first
undecodable frame, whatever was processed before it, and the frames after it
are never processed. -/
theorem c7_amended_malformed_frame_terminates (st : StreamState)
    (pre post : List RawFrame) :
    process_messages st (pre ++ none :: post) = Except.error () := by
  induction pre generalizing st with
  | nil => rfl
  | cons f rest ih =>
    cases f with
    | none => rfl
    | some items => exact ih (items.foldl process_item st)

/-- C8 fixture: a successful fetch whose response carries no `Set-Cookie`
header. -/
def respNoCookie : HttpResponse :=
  { headers := [("Content-Type", "text/html")], text := "<html></html>" }

/-- C8 counterexample: the claim says bootstrap fails only when the fetch
fails and that a missing session-establishing header is never fatal.  With a
successful fetch whose response has no `Set-Cookie` header, the unguarded
`response.headers["Set-Cookie"]` access aborts the bootstrap (`KeyError`), so
a missing header is fatal even though the fetch succeeded. -/
theorem c8_missing_header_is_fatal :
    respNoCookie.headers.lookup "Set-Cookie" = none
      ∧ bootstrap (some respNoCookie)
          = Except.error BootstrapError.missingSetCookieHeader := by
  exact ⟨rfl, rfl⟩

/-- C8 amended: bootstrap fails iff the fetch fails or the response lacks a
`Set-Cookie` header entirely; whenever the header is present — however
malformed — bootstrap succeeds, with the user token and session token
independently defaulting to the empty string when their patterns are absent
from the header. -/
theorem c8_amended_bootstrap_failure_modes :
    bootstrap none = Except.error BootstrapError.fetchFailed
      ∧ (∀ r : HttpResponse, r.headers.lookup "Set-Cookie" = none →
          bootstrap (some r) = Except.error BootstrapError.missingSetCookieHeader)
      ∧ (∀ (r : HttpResponse) (cookie : String),
          r.headers.lookup "Set-Cookie" = some cookie →
          bootstrap (some r) = Except.ok
            { livestream_user_id := (extract_user_id cookie).getD "",
              stats_session := (extract_stats_session cookie).getD "",
              session_cookie :=
                "livestream_user_id=" ++ (extract_user_id cookie).getD ""
                  ++ "; _stats_session=" ++ (extract_stats_session cookie).getD "" }) := by
  refine ⟨rfl, ?_, ?_⟩
  · intro r h
    simp [bootstrap, h]
  · intro r cookie h
    simp [bootstrap, h]

/-- C8 witness: a fetch whose `Set-Cookie` header matches neither token
pattern still bootstraps, with both tokens defaulted to the empty string. -/
theorem c8_amended_witness :
    bootstrap (some { headers := [("Set-Cookie", "theme=dark; path=/")],
                      text := "" })
      = Except.ok
          { livestream_user_id := "",
            stats_session := "",
            session_cookie := "livestream_user_id=; _stats_session=" } := by
  have h := c8_amended_bootstrap_failure_modes.2.2
    { headers := [("Set-Cookie", "theme=dark; path=/")], text := "" }
    "theme=dark; path=/" rfl
  exact h.trans (congrArg Except.ok (by decide))

/-! ## Counter monotonicity (C9) -/

/-- Every counting statistic of `p` is at most the corresponding statistic of
`q` (the spec's seventeen counters). -/
def counter_le (p q : Player) : Prop :=
  p.field_goals_made ≤ q.field_goals_made
    ∧ p.field_goals_attempted ≤ q.field_goals_attempted
    ∧ p.three_point_field_goals_made ≤ q.three_point_field_goals_made
    ∧ p.three_point_field_goals_attempted ≤ q.three_point_field_goals_attempted
    ∧ p.free_throws_made ≤ q.free_throws_made
    ∧ p.free_throws_attempted ≤ q.free_throws_attempted
    ∧ p.points ≤ q.points
    ∧ p.offensive_rebounds ≤ q.offensive_rebounds
    ∧ p.defensive_rebounds ≤ q.defensive_rebounds
    ∧ p.total_rebounds ≤ q.total_rebounds
    ∧ p.assists ≤ q.assists
    ∧ p.turnovers ≤ q.turnovers
    ∧ p.steals ≤ q.steals
    ∧ p.blocks ≤ q.blocks
    ∧ p.fouls ≤ q.fouls
    ∧ p.disqualifications ≤ q.disqualifications
    ∧ p.technical_fouls ≤ q.technical_fouls

/-- Every counting statistic of `q` equals the corresponding statistic of `p`
or exceeds it by exactly one. -/
def counter_step (p q : Player) : Prop :=
  (q.field_goals_made = p.field_goals_made
      ∨ q.field_goals_made = p.field_goals_made + 1)
    ∧ (q.field_goals_attempted = p.field_goals_attempted
        ∨ q.field_goals_attempted = p.field_goals_attempted + 1)
    ∧ (q.three_point_field_goals_made = p.three_point_field_goals_made
        ∨ q.three_point_field_goals_made = p.three_point_field_goals_made + 1)
    ∧ (q.three_point_field_goals_attempted = p.three_point_field_goals_attempted
        ∨ q.three_point_field_goals_attempted = p.three_point_field_goals_attempted + 1)
    ∧ (q.free_throws_made = p.free_throws_made
        ∨ q.free_throws_made = p.free_throws_made + 1)
    ∧ (q.free_throws_attempted = p.free_throws_attempted
        ∨ q.free_throws_attempted = p.free_throws_attempted + 1)
    ∧ (q.points = p.points ∨ q.points = p.points + 1)
    ∧ (q.offensive_rebounds = p.offensive_rebounds
        ∨ q.offensive_rebounds = p.offensive_rebounds + 1)
    ∧ (q.defensive_rebounds = p.defensive_rebounds
        ∨ q.defensive_rebounds = p.defensive_rebounds + 1)
    ∧ (q.total_rebounds = p.total_rebounds ∨ q.total_rebounds = p.total_rebounds + 1)
    ∧ (q.assists = p.assists ∨ q.assists = p.assists + 1)
    ∧ (q.turnovers = p.turnovers ∨ q.turnovers = p.turnovers + 1)
    ∧ (q.steals = p.steals ∨ q.steals = p.steals + 1)
    ∧ (q.blocks = p.blocks ∨ q.blocks = p.blocks + 1)
    ∧ (q.fouls = p.fouls ∨ q.fouls = p.fouls + 1)
    ∧ (q.disqualifications = p.disqualifications
        ∨ q.disqualifications = p.disqualifications + 1)
    ∧ (q.technical_fouls = p.technical_fouls
        ∨ q.technical_fouls = p.technical_fouls + 1)

/-- A sequence of aggregator operations: each element applied through
`add_play` in order (a `Play` value doubles as the raw submission tuple). -/
def apply_ops (p : Player) (ops : List Play) : Player :=
  ops.foldl (fun q op => (add_play q op.play_id op.play_text op.clock op.period).1) p

theorem inc01 (a : Nat) (c : Prop) [Decidable c] :
    a + (if c then 1 else 0) = a ∨ a + (if c then 1 else 0) = a + 1 := by
  by_cases h : c <;> simp [h]

theorem add_play_counter_step (p : Player) (play_id : Int)
    (play_text clock : String) (period : Int) :
    counter_step p (add_play p play_id play_text clock period).1 := by
  rcases hf : p.plays.find? (fun play =>
      play.play_id == play_id && play_text == play_text
        && clock == clock && period == period) with _ | pl
  all_goals simp only [add_play, hf]
  · exact ⟨inc01 _ _, inc01 _ _, inc01 _ _, inc01 _ _, inc01 _ _, inc01 _ _,
      Or.inl rfl, Or.inl rfl, Or.inl rfl, Or.inl rfl, Or.inl rfl, inc01 _ _,
      Or.inl rfl, Or.inl rfl, inc01 _ _, Or.inl rfl, Or.inl rfl⟩
  · exact ⟨Or.inl rfl, Or.inl rfl, Or.inl rfl, Or.inl rfl, Or.inl rfl, Or.inl rfl,
      Or.inl rfl, Or.inl rfl, Or.inl rfl, Or.inl rfl, Or.inl rfl, Or.inl rfl,
      Or.inl rfl, Or.inl rfl, Or.inl rfl, Or.inl rfl, Or.inl rfl⟩

theorem le_of_eq_or_succ (a b : Nat) (h : b = a ∨ b = a + 1) : a ≤ b := by
  omega

theorem counter_le_of_step (p q : Player) (h : counter_step p q) :
    counter_le p q := by
  obtain ⟨h1, h2, h3, h4, h5, h6, h7, h8, h9, h10, h11, h12, h13, h14, h15,
    h16, h17⟩ := h
  exact ⟨le_of_eq_or_succ _ _ h1, le_of_eq_or_succ _ _ h2, le_of_eq_or_succ _ _ h3,
    le_of_eq_or_succ _ _ h4, le_of_eq_or_succ _ _ h5, le_of_eq_or_succ _ _ h6,
    le_of_eq_or_succ _ _ h7, le_of_eq_or_succ _ _ h8, le_of_eq_or_succ _ _ h9,
    le_of_eq_or_succ _ _ h10, le_of_eq_or_succ _ _ h11, le_of_eq_or_succ _ _ h12,
    le_of_eq_or_succ _ _ h13, le_of_eq_or_succ _ _ h14, le_of_eq_or_succ _ _ h15,
    le_of_eq_or_succ _ _ h16, le_of_eq_or_succ _ _ h17⟩

theorem counter_le_trans (p q r : Player) (h1 : counter_le p q)
    (h2 : counter_le q r) : counter_le p r := by
  obtain ⟨a1, a2, a3, a4, a5, a6, a7, a8, a9, a10, a11, a12, a13, a14, a15,
    a16, a17⟩ := h1
  obtain ⟨b1, b2, b3, b4, b5, b6, b7, b8, b9, b10, b11, b12, b13, b14, b15,
    b16, b17⟩ := h2
  exact ⟨a1.trans b1, a2.trans b2, a3.trans b3, a4.trans b4, a5.trans b5,
    a6.trans b6, a7.trans b7, a8.trans b8, a9.trans b9, a10.trans b10,
    a11.trans b11, a12.trans b12, a13.trans b13, a14.trans b14, a15.trans b15,
    a16.trans b16, a17.trans b17⟩

/-- C9: every counting statistic is monotonically non-decreasing under
aggregator operations — each `add_play` either leaves a counter unchanged or
increments it by one (never decrements or resets), and hence over any
sequence of operations each counter is non-decreasing. -/
theorem c9_counters_monotone :
    (∀ (p : Player) (play_id : Int) (play_text clock : String) (period : Int),
        counter_step p (add_play p play_id play_text clock period).1)
      ∧ (∀ (p : Player) (ops : List Play), counter_le p (apply_ops p ops)) := by
  constructor
  · exact add_play_counter_step
  · intro p ops
    induction ops generalizing p with
    | nil =>
      unfold counter_le apply_ops
      simp
    | cons op rest ih =>
      refine counter_le_trans _ _ _
        (counter_le_of_step _ _
          (add_play_counter_step p op.play_id op.play_text op.clock op.period))
        ?_
      exact ih ((add_play p op.play_id op.play_text op.clock op.period).1)

/-! ## The unparenthesized `|made` alternation (C10) -/

/-- C10 counterexample: the claim's precondition is only that the play (the
full tuple) is previously unseen.  `add_play` de-duplicates on `play_id`
alone, so a previously-unseen tuple reusing an existing play id is swallowed
without touching any counter: text `"made free throw"` contains `made`, the
tuple is not among the player's plays, yet the player is returned unchanged. -/
theorem c10_unseen_tuple_with_made_not_counted :
    (({ mkPlayer "Lee" with
          plays := [{ play_id := 5, play_text := "offensive rebound",
                      clock := "3:00", period := 1 }] } : Player).plays.contains
        { play_id := 5, play_text := "made free throw", clock := "2:50", period := 1 })
        = false
      ∧ occursSub "made" (lcChars "made free throw") = true
      ∧ (add_play
            { mkPlayer "Lee" with
                plays := [{ play_id := 5, play_text := "offensive rebound",
                            clock := "3:00", period := 1 }] }
            5 "made free throw" "2:50" 1).1
          = { mkPlayer "Lee" with
                plays := [{ play_id := 5, play_text := "offensive rebound",
                            clock := "3:00", period := 1 }] } := by
  refine ⟨rfl, rfl, rfl⟩

/-- C10 amended: for every play text containing `made` (case-insensitively),
applying a play whose identifier does not occur among the player's existing
plays increments `field_goals_attempted`, `three_point_field_goals_attempted`
and `free_throws_attempted` each by exactly one in the same call, regardless
of which kind of shot the text describes — the unparenthesized `|made`
alternation makes `made` alone a match for all three attempt rules. -/
theorem c10_made_bumps_all_three_attempt_counters (p : Player) (play_id : Int)
    (play_text clock : String) (period : Int)
    (hmade : occursSub "made" (lcChars play_text) = true)
    (hfresh : ∀ pl ∈ p.plays, pl.play_id ≠ play_id) :
    (add_play p play_id play_text clock period).1.field_goals_attempted
        = p.field_goals_attempted + 1
      ∧ (add_play p play_id play_text clock period).1.three_point_field_goals_attempted
          = p.three_point_field_goals_attempted + 1
      ∧ (add_play p play_id play_text clock period).1.free_throws_attempted
          = p.free_throws_attempted + 1 := by
  have hnone : p.plays.find? (fun play =>
      play.play_id == play_id && play_text == play_text
        && clock == clock && period == period) = none := by
    rw [List.find?_eq_none]
    intro pl hpl
    simp [beq_eq_false_iff_ne, hfresh pl hpl]
  simp only [add_play, hnone, update_stats_from_play]
  have hfga : re_fga play_text = true := by
    unfold re_fga
    rw [hmade, Bool.or_true]
  have h3 : re_3pfga play_text = true := by
    unfold re_3pfga
    rw [hmade, Bool.or_true]
  have hfta : re_fta play_text = true := by
    unfold re_fta
    rw [hmade, Bool.or_true]
  rw [hfga, h3, hfta]
  exact ⟨rfl, rfl, rfl⟩

/-- C10 witness: a fresh player receiving play 9 `"Doe(ABC) made Dunk"`. -/
theorem c10_made_bumps_all_three_witness :
    (add_play (mkPlayer "Doe") 9 "Doe(ABC) made Dunk" "1:00" 2).1.field_goals_attempted
        = (mkPlayer "Doe").field_goals_attempted + 1
      ∧ (add_play (mkPlayer "Doe") 9 "Doe(ABC) made Dunk" "1:00" 2).1.three_point_field_goals_attempted
          = (mkPlayer "Doe").three_point_field_goals_attempted + 1
      ∧ (add_play (mkPlayer "Doe") 9 "Doe(ABC) made Dunk" "1:00" 2).1.free_throws_attempted
          = (mkPlayer "Doe").free_throws_attempted + 1 :=
  c10_made_bumps_all_three_attempt_counters (mkPlayer "Doe") 9 "Doe(ABC) made Dunk"
    "1:00" 2 (by decide) (by decide)

end Rebound
